import Mathlib

/-!
Shallow embedding of src/main.py: a supervisor that spawns a child
process and runs a background monitor loop which, each cycle, queries
constant resource ceilings and applies them through a memory actuator
(resource.setrlimit on RLIMIT_AS), a CPU actuator (psutil cpu_affinity
and nice) and a GPU actuator stub.
-/

/-- Errors an actuator call can raise, abstracting the Python exceptions:
ValueError from resource.setrlimit for an out-of-range soft limit,
psutil.NoSuchProcess when the target process has exited, and the
AttributeError raised where psutil does not expose cpu_affinity. -/
inductive ActuatorError
  | InvalidLimit
  | ProcessNotFound
  | UnsupportedPlatform
deriving DecidableEq, Repr

/-- The RLIMIT_AS pair of the calling (supervisor) process: current soft
limit and hard limit, as returned by resource.getrlimit. -/
structure RLimit where
  soft : Int
  hard : Int
deriving DecidableEq, Repr

/-- State of the child process as seen by the CPU actuator: its CPU
affinity list, its niceness, and whether it is still alive. -/
structure ProcState where
  affinity : List Nat
  nice : Int
  alive : Bool
deriving DecidableEq, Repr

/-- Host facts consulted by adjust_cpu_limit: the logical CPU count
returned by psutil.cpu_count(logical=True), and whether the platform
exposes the cpu_affinity control. -/
structure Platform where
  num_cpus : Nat
  affinity_supported : Bool
deriving DecidableEq, Repr

/-- main.py lines 9-14: adjust_memory_limit(process, value). The process
argument is unused in the source; the resource module acts on the
ambient limit context of the calling process, passed here explicitly as
rl. The current (soft, hard) pair is read and the soft limit is set to
value with hard kept. resource.setrlimit rejects a negative value or a
value above the hard limit (ValueError, abstracted as InvalidLimit). -/
def adjust_memory_limit (_process : ProcState) (rl : RLimit) (value : Int) :
    Except ActuatorError RLimit :=
  if 0 ≤ value ∧ value ≤ rl.hard then
    Except.ok { soft := value, hard := rl.hard }
  else
    Except.error ActuatorError.InvalidLimit

/-- main.py lines 17-30: adjust_cpu_limit(process, value). It computes
num_cores = max(1, int(num_cpus * value / 100)); for the nonnegative
integer inputs involved, Python int(num_cpus * value / 100) agrees with
Nat floor division. It then sets the affinity of the process to
list(range(num_cores)) and sets its niceness to the absolute value 10.
psutil raises NoSuchProcess for an exited process, and the affinity call
is unavailable on platforms without affinity control. -/
def adjust_cpu_limit (plat : Platform) (ps : ProcState) (value : Nat) :
    Except ActuatorError ProcState :=
  if ps.alive = false then
    Except.error ActuatorError.ProcessNotFound
  else if plat.affinity_supported = false then
    Except.error ActuatorError.UnsupportedPlatform
  else
    let num_cores := max 1 (plat.num_cpus * value / 100)
    Except.ok { ps with affinity := List.range num_cores, nice := 10 }

/-- main.py lines 33-35: adjust_gpu_limit(process, value) is a pass
statement, a no-op that always succeeds. -/
def adjust_gpu_limit (ps : ProcState) (_value : Nat) : Except ActuatorError ProcState :=
  Except.ok ps

/-- main.py lines 38-39: the constant memory ceiling, 1 GiB. -/
def get_max_memory : Int := 1024 * 1024 * 1024

/-- main.py lines 42-43: the constant CPU ceiling, 50 percent. -/
def get_max_cpu : Nat := 50

/-- main.py lines 46-47: the constant GPU ceiling, 50 percent. -/
def get_max_gpu : Nat := 50

/-- Mutable state touched by one monitor cycle: the resource-limit
context of the supervisor process (memory actuator) and the child
process state (CPU and GPU actuators). -/
structure World where
  rlimit : RLimit
  proc : ProcState
deriving DecidableEq, Repr

/-- Observable events of monitor-loop iterations, in program order:
the three ceiling queries, the three actuator invocations, an uncaught
actuator exception, and the fixed 1-second sleep ending a cycle. -/
inductive Event
  | query_memory
  | query_cpu
  | query_gpu
  | call_memory
  | call_cpu
  | call_gpu
  | fail (e : ActuatorError)
  | sleep
deriving DecidableEq, Repr

/-- main.py lines 52-60: the body of one iteration of
monitor_memory_and_cpu. The three ceilings are queried first, then the
three actuators are called in the order memory, CPU, GPU, then the loop
sleeps. The loop body contains no try/except, so an exception from an
actuator aborts the iteration at that point. -/
def monitor_cycle (plat : Platform) (w : World) : List Event × Except ActuatorError World :=
  let qs : List Event := [Event.query_memory, Event.query_cpu, Event.query_gpu]
  match adjust_memory_limit w.proc w.rlimit get_max_memory with
  | Except.error e => (qs ++ [Event.call_memory, Event.fail e], Except.error e)
  | Except.ok rl =>
    match adjust_cpu_limit plat w.proc get_max_cpu with
    | Except.error e =>
        (qs ++ [Event.call_memory, Event.call_cpu, Event.fail e], Except.error e)
    | Except.ok ps =>
      match adjust_gpu_limit ps get_max_gpu with
      | Except.error e =>
          (qs ++ [Event.call_memory, Event.call_cpu, Event.call_gpu, Event.fail e],
           Except.error e)
      | Except.ok ps2 =>
          (qs ++ [Event.call_memory, Event.call_cpu, Event.call_gpu, Event.sleep],
           Except.ok { rlimit := rl, proc := ps2 })

/-- main.py lines 50-60: monitor_memory_and_cpu as a trace function.
flag n is the value of process_finished.is_set() observed at the start
of iteration n; fuel bounds how many iterations are considered. When the
flag reads set the loop exits at once; otherwise one cycle runs, and an
uncaught actuator exception ends the thread with no further iterations
(the loop installs no handler). -/
def monitor_loop (plat : Platform) (flag : Nat → Bool) : Nat → Nat → World → List Event
  | 0, _, _ => []
  | fuel + 1, n, w =>
    if flag n then []
    else
      match monitor_cycle plat w with
      | (evs, Except.error _) => evs
      | (evs, Except.ok w2) => evs ++ monitor_loop plat flag fuel (n + 1) w2

/-- Ways subprocess.Popen can fail to create the child. -/
inductive SpawnError
  | executableNotFound
  | permissionDenied
deriving DecidableEq, Repr

/-- Observable supervisor events of run (main.py lines 63-80). -/
inductive SupEvent
  | spawn_child
  | start_monitor
  | wait_child (code : Int)
  | set_flag
deriving DecidableEq, Repr

/-- main.py lines 63-80: run(). The environment is summarized by spawn:
either Popen raises (Except.error) or the child is created and will
eventually exit with the given code (Except.ok code). On success, run
starts the daemon monitor thread, blocks in proc.wait(), sets
process_finished, and falls off the end, returning None (modelled as
Unit); the exit code returned by proc.wait() is discarded. On spawn
failure the exception propagates out of run before the monitor thread is
created. -/
def run_events (spawn : Except SpawnError Int) : List SupEvent × Except SpawnError Unit :=
  match spawn with
  | Except.error e => ([], Except.error e)
  | Except.ok code =>
      ([SupEvent.spawn_child, SupEvent.start_monitor, SupEvent.wait_child code,
        SupEvent.set_flag], Except.ok ())

/-- main.py lines 83-84: the main block calls run(); the interpreter
exits with status 0 when run returns normally and with a nonzero status
(1) when the uncaught spawn exception unwinds. -/
def program_exit_code (spawn : Except SpawnError Int) : Int :=
  match (run_events spawn).2 with
  | Except.ok _ => 0
  | Except.error _ => 1

/-- main.py lines 68 and 80: process_finished is a threading.Event
created cleared, and the only mutation anywhere in the program is the
single set() call after proc.wait(). Its observed value over time is
therefore determined by the index T of the first loop check at which the
set is visible. -/
def terminationFlag (T n : Nat) : Bool := decide (T ≤ n)

/-- C3: for every logical core count N ≥ 1 and ceiling percent p with
0 ≤ p ≤ 100, on a platform with affinity control and a live process,
adjust_cpu_limit succeeds, and the restricted-core count equals
max(1, floor(N * p / 100)): the eligible-core set becomes exactly the
first that-many core indices, a contiguous prefix starting at 0. -/
theorem cpu_core_computation (N p : Nat) (ps : ProcState)
    (_hN : 1 ≤ N) (_hp : p ≤ 100) (halive : ps.alive = true) :
    ∃ ps2 : ProcState,
      adjust_cpu_limit ⟨N, true⟩ ps p = Except.ok ps2 ∧
      ps2.affinity = List.range (max 1 (N * p / 100)) ∧
      ps2.affinity.length = max 1 (N * p / 100) ∧
      ∀ i : Nat, i ∈ ps2.affinity ↔ i < max 1 (N * p / 100) := by
  refine ⟨{ ps with affinity := List.range (max 1 (N * p / 100)), nice := 10 },
    ?_, rfl, ?_, ?_⟩
  · simp [adjust_cpu_limit, halive]
  · simp
  · intro i
    simp

/-- C3 witness: N = 8, p = 50 gives the first 4 cores. -/
theorem cpu_core_computation_witness :
    ∃ ps2 : ProcState,
      adjust_cpu_limit ⟨8, true⟩ ⟨[], 0, true⟩ 50 = Except.ok ps2 ∧
      ps2.affinity = List.range (max 1 (8 * 50 / 100)) ∧
      ps2.affinity.length = max 1 (8 * 50 / 100) ∧
      ∀ i : Nat, i ∈ ps2.affinity ↔ i < max 1 (8 * 50 / 100) :=
  cpu_core_computation 8 50 ⟨[], 0, true⟩ (by decide) (by decide) rfl

/-- C5: for any process argument and any ceiling B with
0 ≤ B ≤ hard limit of the calling context, adjust_memory_limit succeeds,
the soft limit becomes exactly B and the hard limit is unchanged. -/
theorem memory_soft_limit_set_hard_unchanged (process : ProcState) (rl : RLimit)
    (B : Int) (h0 : 0 ≤ B) (hh : B ≤ rl.hard) :
    ∃ rl2 : RLimit,
      adjust_memory_limit process rl B = Except.ok rl2 ∧
      rl2.soft = B ∧ rl2.hard = rl.hard :=
  ⟨⟨B, rl.hard⟩, by simp [adjust_memory_limit, h0, hh], rfl, rfl⟩

/-- C5 witness: ceiling 7 within a hard limit of 100. -/
theorem memory_soft_limit_set_hard_unchanged_witness :
    ∃ rl2 : RLimit,
      adjust_memory_limit ⟨[], 0, true⟩ ⟨0, 100⟩ 7 = Except.ok rl2 ∧
      rl2.soft = 7 ∧ rl2.hard = (⟨0, 100⟩ : RLimit).hard :=
  memory_soft_limit_set_hard_unchanged ⟨[], 0, true⟩ ⟨0, 100⟩ 7 (by decide) (by decide)

/-- C8: whenever Popen fails, run surfaces the spawn failure as a hard
error and the monitor thread is never started. -/
theorem spawn_failure_no_monitor (e : SpawnError) :
    (run_events (Except.error e)).2 = Except.error e ∧
    SupEvent.start_monitor ∉ (run_events (Except.error e)).1 := by
  exact ⟨rfl, by simp [run_events]⟩

/-- C1 counterexample: a child that spawns successfully and exits with
code 3 does not make run return 3 — run returns None (Unit) — and the
program itself exits with code 0, not 3. -/
theorem run_discards_exit_code_cex :
    (run_events (Except.ok 3)).2 = Except.ok () ∧
    program_exit_code (Except.ok 3) = 0 ∧
    program_exit_code (Except.ok 3) ≠ 3 :=
  ⟨rfl, rfl, by decide⟩

/-- C1 amended: for every child exit code E, run waits for the child and
returns None, discarding the code returned by proc.wait(), and the
program exits with code 0 regardless of E. -/
theorem run_returns_none_program_exits_zero (E : Int) :
    (run_events (Except.ok E)).2 = Except.ok () ∧
    program_exit_code (Except.ok E) = 0 :=
  ⟨rfl, rfl⟩

/-- C9 counterexample: a live process currently at niceness 15 ends at
niceness 10 after adjust_cpu_limit — a strictly higher priority than
before — so the actuator does not lower the priority by one notch
relative to the current priority. -/
theorem nice_absolute_cex :
    adjust_cpu_limit ⟨8, true⟩ ⟨[], 15, true⟩ 50 =
      Except.ok ⟨List.range 4, 10, true⟩ ∧ (10 : Int) < 15 :=
  ⟨rfl, by decide⟩

/-- C9 amended: on every successful invocation the CPU actuator, after
restricting core affinity, sets the scheduling priority to the fixed
below-normal niceness value 10, independent of the current priority. -/
theorem nice_set_to_ten (plat : Platform) (ps : ProcState) (v : Nat)
    (halive : ps.alive = true) (hsup : plat.affinity_supported = true) :
    ∃ ps2 : ProcState,
      adjust_cpu_limit plat ps v = Except.ok ps2 ∧ ps2.nice = 10 := by
  refine ⟨⟨List.range (max 1 (plat.num_cpus * v / 100)), 10, ps.alive⟩, ?_, rfl⟩
  simp [adjust_cpu_limit, halive, hsup]

/-- C9 amended witness: a process at niceness 3 on a 4-core platform. -/
theorem nice_set_to_ten_witness :
    ∃ ps2 : ProcState,
      adjust_cpu_limit ⟨4, true⟩ ⟨[], 3, true⟩ 25 = Except.ok ps2 ∧ ps2.nice = 10 :=
  nice_set_to_ten ⟨4, true⟩ ⟨[], 3, true⟩ 25 rfl rfl

/-- C10: adjust_cpu_limit is idempotent: applied to its own successful
output with the same percent it returns that state unchanged, because
the affinity is a function of the percent and the core count only and
the niceness is the fixed absolute value 10. -/
theorem cpu_limit_idempotent (plat : Platform) (ps ps2 : ProcState) (v : Nat)
    (h : adjust_cpu_limit plat ps v = Except.ok ps2) :
    adjust_cpu_limit plat ps2 v = Except.ok ps2 := by
  by_cases halive : ps.alive = false
  · simp [adjust_cpu_limit, halive] at h
  · by_cases hsup : plat.affinity_supported = false
    · simp [adjust_cpu_limit, halive, hsup] at h
    · simp [adjust_cpu_limit, halive, hsup] at h
      subst h
      simp [adjust_cpu_limit, halive, hsup]

/-- C10 witness: on a 2-core platform at 50 percent, the once-adjusted
state (affinity [0], niceness 10) is a fixed point. -/
theorem cpu_limit_idempotent_witness :
    adjust_cpu_limit ⟨2, true⟩ ⟨[0], 10, true⟩ 50 = Except.ok ⟨[0], 10, true⟩ :=
  cpu_limit_idempotent ⟨2, true⟩ ⟨[], 0, true⟩ ⟨[0], 10, true⟩ 50 rfl

/-- C2 counterexample: with the CPU actuator forced to fail with
UnsupportedPlatform, the GPU actuator does not execute on that same
cycle, and although the signal is never set and fuel remains for four
more iterations, no subsequent cycle runs either: the uncaught failure
aborts the monitor loop. -/
theorem cpu_failure_blocks_gpu_cex :
    monitor_loop ⟨8, false⟩ (fun _ => false) 5 0 ⟨⟨0, 3000000000⟩, ⟨[], 0, true⟩⟩ =
      [Event.query_memory, Event.query_cpu, Event.query_gpu,
       Event.call_memory, Event.call_cpu, Event.fail ActuatorError.UnsupportedPlatform] ∧
    Event.call_gpu ∉
      monitor_loop ⟨8, false⟩ (fun _ => false) 5 0 ⟨⟨0, 3000000000⟩, ⟨[], 0, true⟩⟩ ∧
    (monitor_loop ⟨8, false⟩ (fun _ => false) 5 0
      ⟨⟨0, 3000000000⟩, ⟨[], 0, true⟩⟩).count Event.query_memory = 1 := by
  refine ⟨by decide, by decide, by decide⟩

/-- C2 amended: an actuator failure never reaches the supervisor and
never touches the child lifecycle (run proceeds to wait and set the flag
regardless), but the failure is not isolated inside the loop: when the
memory actuator succeeds and the CPU actuator fails, the cycle ends
before the GPU actuator is invoked and the whole monitor loop
terminates, so no later cycle executes. -/
theorem actuator_failure_aborts_loop (plat : Platform) (flag : Nat → Bool)
    (fuel n : Nat) (w : World) (rl : RLimit) (e : ActuatorError) (E : Int)
    (hflag : flag n = false)
    (hmem : adjust_memory_limit w.proc w.rlimit get_max_memory = Except.ok rl)
    (hcpu : adjust_cpu_limit plat w.proc get_max_cpu = Except.error e) :
    monitor_loop plat flag (fuel + 1) n w =
      [Event.query_memory, Event.query_cpu, Event.query_gpu,
       Event.call_memory, Event.call_cpu, Event.fail e] ∧
    Event.call_gpu ∉ monitor_loop plat flag (fuel + 1) n w ∧
    (run_events (Except.ok E)).2 = Except.ok () := by
  have h1 : monitor_loop plat flag (fuel + 1) n w =
      [Event.query_memory, Event.query_cpu, Event.query_gpu,
       Event.call_memory, Event.call_cpu, Event.fail e] := by
    simp [monitor_loop, monitor_cycle, hflag, hmem, hcpu]
  refine ⟨h1, ?_, rfl⟩
  rw [h1]
  simp

/-- C2 amended witness: CPU failure on a 4-core platform without
affinity support, with a hard limit above the constant ceiling. -/
theorem actuator_failure_aborts_loop_witness :
    monitor_loop ⟨4, false⟩ (fun _ => false) (2 + 1) 0
        ⟨⟨0, 2000000000⟩, ⟨[], 0, true⟩⟩ =
      [Event.query_memory, Event.query_cpu, Event.query_gpu,
       Event.call_memory, Event.call_cpu,
       Event.fail ActuatorError.UnsupportedPlatform] ∧
    Event.call_gpu ∉ monitor_loop ⟨4, false⟩ (fun _ => false) (2 + 1) 0
        ⟨⟨0, 2000000000⟩, ⟨[], 0, true⟩⟩ ∧
    (run_events (Except.ok 0)).2 = Except.ok () :=
  actuator_failure_aborts_loop ⟨4, false⟩ (fun _ => false) 2 0
    ⟨⟨0, 2000000000⟩, ⟨[], 0, true⟩⟩ ⟨1073741824, 2000000000⟩
    ActuatorError.UnsupportedPlatform 0 rfl rfl rfl

/-- C4: the termination signal is monotone — observed set at check m, it
is set at every later check n and never reverts; it is set exactly once
by the supervisor, immediately after the child exit is observed (the
single set_flag event follows wait_child in run); and once the monitor
loop observes it set, it attempts no further actuation cycle. -/
theorem termination_signal_monotone_loop_stops (T m n : Nat) (plat : Platform)
    (fuel : Nat) (w : World) (E : Int)
    (hset : terminationFlag T m = true) (hmn : m ≤ n) :
    terminationFlag T n = true ∧
    monitor_loop plat (terminationFlag T) fuel n w = [] ∧
    (run_events (Except.ok E)).1 =
      [SupEvent.spawn_child, SupEvent.start_monitor, SupEvent.wait_child E,
       SupEvent.set_flag] := by
  have hTn : terminationFlag T n = true := by
    simp only [terminationFlag, decide_eq_true_eq] at hset ⊢
    exact le_trans hset hmn
  refine ⟨hTn, ?_, rfl⟩
  cases fuel with
  | zero => rfl
  | succ k => simp [monitor_loop, hTn]

/-- C4 witness: signal set from check 0 on; at check 2 the loop with
fuel 5 performs no actuation. -/
theorem termination_signal_monotone_loop_stops_witness :
    terminationFlag 0 2 = true ∧
    monitor_loop ⟨1, true⟩ (terminationFlag 0) 5 2 ⟨⟨0, 2000000000⟩, ⟨[], 0, true⟩⟩ = [] ∧
    (run_events (Except.ok 3)).1 =
      [SupEvent.spawn_child, SupEvent.start_monitor, SupEvent.wait_child 3,
       SupEvent.set_flag] :=
  termination_signal_monotone_loop_stops 0 0 2 ⟨1, true⟩ 5
    ⟨⟨0, 2000000000⟩, ⟨[], 0, true⟩⟩ 3 (by decide) (by decide)

/-- C6 counterexample: with a hard limit of 100 bytes, below the
constant 1 GiB ceiling, the memory actuator fails with InvalidLimit on
the first cycle; the loop does not log and continue to the next cycle —
with fuel for three cycles and the signal never set, only one cycle
starts (exactly one query_memory in the trace). -/
theorem invalid_limit_kills_loop_cex :
    monitor_loop ⟨8, true⟩ (fun _ => false) 3 0 ⟨⟨0, 100⟩, ⟨[], 0, true⟩⟩ =
      [Event.query_memory, Event.query_cpu, Event.query_gpu,
       Event.call_memory, Event.fail ActuatorError.InvalidLimit] ∧
    (monitor_loop ⟨8, true⟩ (fun _ => false) 3 0
      ⟨⟨0, 100⟩, ⟨[], 0, true⟩⟩).count Event.query_memory = 1 := by
  refine ⟨by decide, by decide⟩

/-- C6 amended: a ceiling that is negative or above the hard limit makes
adjust_memory_limit fail with InvalidLimit, an error local to the memory
actuator; but the monitor loop does not log and continue — a memory
actuator failure on a cycle ends that cycle before the CPU and GPU
actuators and terminates the loop, so no next cycle runs. -/
theorem invalid_limit_error_loop_aborts (process : ProcState) (rl : RLimit) (v : Int)
    (plat : Platform) (flag : Nat → Bool) (fuel n : Nat) (w : World)
    (hv : v < 0 ∨ rl.hard < v)
    (hflag : flag n = false)
    (hmem : adjust_memory_limit w.proc w.rlimit get_max_memory =
            Except.error ActuatorError.InvalidLimit) :
    adjust_memory_limit process rl v = Except.error ActuatorError.InvalidLimit ∧
    monitor_loop plat flag (fuel + 1) n w =
      [Event.query_memory, Event.query_cpu, Event.query_gpu,
       Event.call_memory, Event.fail ActuatorError.InvalidLimit] := by
  constructor
  · rw [adjust_memory_limit, if_neg]
    rintro ⟨h1, h2⟩
    rcases hv with h | h
    · omega
    · omega
  · simp [monitor_loop, monitor_cycle, hflag, hmem]

/-- C6 amended witness: ceiling -5 against a hard limit of 100, and a
loop whose context has hard limit 50, below the constant ceiling. -/
theorem invalid_limit_error_loop_aborts_witness :
    adjust_memory_limit ⟨[], 0, true⟩ ⟨0, 100⟩ (-5) =
      Except.error ActuatorError.InvalidLimit ∧
    monitor_loop ⟨8, true⟩ (fun _ => false) (4 + 1) 0 ⟨⟨0, 50⟩, ⟨[], 0, true⟩⟩ =
      [Event.query_memory, Event.query_cpu, Event.query_gpu,
       Event.call_memory, Event.fail ActuatorError.InvalidLimit] :=
  invalid_limit_error_loop_aborts ⟨[], 0, true⟩ ⟨0, 100⟩ (-5) ⟨8, true⟩
    (fun _ => false) 4 0 ⟨⟨0, 50⟩, ⟨[], 0, true⟩⟩ (Or.inl (by decide)) rfl rfl

/-- C7 counterexample: a cycle executed while the signal is unset, with
the child process already exited, queries all three ceilings but never
invokes the GPU actuator and never reaches the sleep, so it is not the
case that every executed cycle invokes all three actuators and then
sleeps. -/
theorem executed_cycle_missing_gpu_cex :
    monitor_loop ⟨8, true⟩ (fun _ => false) 3 0 ⟨⟨0, 2000000000⟩, ⟨[], 0, false⟩⟩ =
      [Event.query_memory, Event.query_cpu, Event.query_gpu,
       Event.call_memory, Event.call_cpu, Event.fail ActuatorError.ProcessNotFound] ∧
    Event.call_gpu ∉
      monitor_loop ⟨8, true⟩ (fun _ => false) 3 0 ⟨⟨0, 2000000000⟩, ⟨[], 0, false⟩⟩ ∧
    Event.sleep ∉
      monitor_loop ⟨8, true⟩ (fun _ => false) 3 0 ⟨⟨0, 2000000000⟩, ⟨[], 0, false⟩⟩ := by
  refine ⟨by decide, by decide, by decide⟩

/-- C7 amended: every cycle executed while the signal is unset queries
all three ceilings and then attempts the actuators in the fixed order
memory, then CPU, then GPU, a failure ending the cycle at that point;
when all three succeed the cycle ends with the fixed 1-unit sleep and
the loop continues directly with the next cycle — no cycle is skipped
while running. -/
theorem cycle_order_memory_cpu_gpu (plat : Platform) (flag : Nat → Bool)
    (fuel n : Nat) (w w2 : World)
    (hflag : flag n = false)
    (hok : (monitor_cycle plat w).2 = Except.ok w2) :
    monitor_loop plat flag (fuel + 1) n w =
      [Event.query_memory, Event.query_cpu, Event.query_gpu,
       Event.call_memory, Event.call_cpu, Event.call_gpu, Event.sleep] ++
      monitor_loop plat flag fuel (n + 1) w2 := by
  cases hmem : adjust_memory_limit w.proc w.rlimit get_max_memory with
  | error e => simp [monitor_cycle, hmem] at hok
  | ok rl =>
    cases hcpu : adjust_cpu_limit plat w.proc get_max_cpu with
    | error e => simp [monitor_cycle, hmem, hcpu] at hok
    | ok ps =>
      simp only [monitor_cycle, hmem, hcpu, adjust_gpu_limit, Except.ok.injEq] at hok
      subst hok
      simp [monitor_loop, monitor_cycle, hflag, hmem, hcpu, adjust_gpu_limit]

/-- C7 amended witness: a fully successful cycle on an 8-core platform
emits the seven cycle events in order and continues with the next
cycle. -/
theorem cycle_order_memory_cpu_gpu_witness :
    monitor_loop ⟨8, true⟩ (fun _ => false) (2 + 1) 0
        ⟨⟨0, 2000000000⟩, ⟨[], 0, true⟩⟩ =
      [Event.query_memory, Event.query_cpu, Event.query_gpu,
       Event.call_memory, Event.call_cpu, Event.call_gpu, Event.sleep] ++
      monitor_loop ⟨8, true⟩ (fun _ => false) 2 1
        ⟨⟨1073741824, 2000000000⟩, ⟨List.range 4, 10, true⟩⟩ :=
  cycle_order_memory_cpu_gpu ⟨8, true⟩ (fun _ => false) 2 0
    ⟨⟨0, 2000000000⟩, ⟨[], 0, true⟩⟩
    ⟨⟨1073741824, 2000000000⟩, ⟨List.range 4, 10, true⟩⟩ rfl rfl
